import Mathlib

set_option maxRecDepth 8000

/-
  Verification development for the notebook
  `Section7_6-Bayesian-Neural-Networks.ipynb`.

  The notebook is a linear sequence of cells: generate a `make_moons`
  dataset, scale it, split train/test, declare a 2-5-5-1 Bayesian neural
  network with Normal(0,1) priors in PyMC3, fit it with ADVI, sample class
  probabilities for the test set and for a 100x100 grid, and report
  accuracy and contour plots.

  Shallow embedding conventions:
  * numpy float arrays are embedded as `List ℚ` / `List (List ℚ)` (rows
    first); real-analytic facts about the network use `ℝ`;
  * external library routines whose outputs are transcendental or random
    (the moon coordinates cos/sin, sklearn's scaler, PyMC3's ADVI fit and
    its sampler, the random streams) are abstracted as parameters, while
    the structure the repository's code imposes on them (shapes, label
    construction, shuffling, splitting, thresholding, accuracy formula)
    is embedded concretely from the source.
-/

namespace BNN

/-! ### Dataset generation: `datasets.make_moons(noise=0.2, n_samples=1000)`

sklearn's `make_moons` builds `n/2` outer-circle points and `n - n/2`
inner-circle points, labels them `0` and `1` respectively, shuffles the
rows of `X` and `y` with one shared permutation, and finally adds
Gaussian noise to `X`.  The transcendental point coordinates, the shuffle
and the noise are abstracted as parameters `outer`, `inner`, `sigma`,
`noise`. -/

/-- Label vector before shuffling: `hstack([zeros(n//2), ones(n - n//2)])`. -/
def moonLabels (n : Nat) : List Nat :=
  List.replicate (n / 2) 0 ++ List.replicate (n - n / 2) 1

/-- Point list before shuffling: outer-circle points then inner-circle points. -/
def moonBase (n : Nat) (outer inner : Nat → ℚ × ℚ) : List (ℚ × ℚ) :=
  (List.range (n / 2)).map outer ++ (List.range (n - n / 2)).map inner

/-- Row shuffle by an index map, as `sklearn.utils.shuffle` applies a
permutation to the rows of an array. -/
def applyShuffle [Inhabited α] (sigma : Nat → Nat) (l : List α) : List α :=
  (List.range l.length).map fun i => l.getD (sigma i) default

/-- `datasets.make_moons(noise=0.2, n_samples=n)`: returns the feature
matrix (one `[x1, x2]` row per sample, noise added after the shuffle) and
the label vector. -/
def make_moons (n : Nat) (outer inner : Nat → ℚ × ℚ) (sigma : Nat → Nat)
    (noise : Nat → ℚ × ℚ) : List (List ℚ) × List Nat :=
  let base := applyShuffle sigma (moonBase n outer inner)
  let X := (List.range n).map fun i =>
    let p := base.getD i (0, 0)
    [p.1 + (noise i).1, p.2 + (noise i).2]
  (X, applyShuffle sigma (moonLabels n))

/-! ### Train/test split: `train_test_split(X, y, test_size=.3)`

sklearn draws a random permutation of the row indices, takes the first
`ceil(test_size * n)` of them as the test set and the remaining
`n - n_test` as the training set. -/

/-- `n_test = ceil(test_size * n_samples)` for a float `test_size`. -/
def n_test (testSize : ℚ) (n : Nat) : Nat :=
  Nat.ceil (testSize * (n : ℚ))

/-- `train_test_split(X, y, test_size)` driven by an index permutation
`perm`; returns `(X_train, X_test, y_train, y_test)` as the source does. -/
def train_test_split [Inhabited α] [Inhabited β] (X : List α) (y : List β)
    (testSize : ℚ) (perm : List Nat) :
    List α × List α × List β × List β :=
  let k := n_test testSize X.length
  let pairs := X.zip y
  let test := (perm.take k).map fun i => pairs.getD i default
  let train := (perm.drop k).map fun i => pairs.getD i default
  (train.map Prod.fst, test.map Prod.fst, train.map Prod.snd, test.map Prod.snd)

/-! ### Prediction and accuracy cells

`pred = sample_proba(X_test, 500).mean(0) > 0.5` and
`print('Accuracy ...'.format((y_test == pred).mean() * 100))`. -/

/-- Number of columns of a (rectangular) row-major matrix. -/
def ncols (a : List (List ℚ)) : Nat := (a.headD []).length

/-- Column mean: entry `i` of numpy's `a.mean(0)` for a 2-D array `a`. -/
def meanAt (a : List (List ℚ)) (i : Nat) : ℚ :=
  (a.map fun r => r.getD i 0).sum / (a.length : ℚ)

/-- numpy `a.mean(axis=0)`: one column mean per column. -/
def meanAxis0 (a : List (List ℚ)) : List ℚ :=
  (List.range (ncols a)).map (meanAt a)

/-- The `pred` cell: elementwise `mean(0) > 0.5` on the sampled
probability matrix. -/
def predOf (a : List (List ℚ)) : List Bool :=
  (meanAxis0 a).map fun q => decide ((1 : ℚ) / 2 < q)

/-- Count of positions where the float test label equals the boolean
prediction, numpy promoting `True`/`False` to `1.0`/`0.0` in
`y_test == pred`. -/
def matchCount (yTest : List ℚ) (p : List Bool) : Nat :=
  (yTest.zip p).countP fun q => decide (q.1 = if q.2 then (1 : ℚ) else 0)

/-- The accuracy cell: `(y_test == pred).mean() * 100`. -/
def accuracy (yTest : List ℚ) (p : List Bool) : ℚ :=
  (matchCount yTest p : ℚ) / (yTest.length : ℚ) * 100

/-! ### The model-declaration cell (`with pm.Model() as neural_network`)

The cell declares three free random variables `w_in_1`, `w_1_2`,
`w_2_out` with `pm.Normal(..., 0, sd=1, shape=...)` priors and one
observed `pm.Bernoulli('out', act_out, observed=ann_output)` node.
`n_hidden = 5` and `X.shape[1] = 2` (the `make_moons` features). -/

/-- `n_hidden = 5` from the source. -/
def n_hidden : Nat := 5

/-- `X.shape[1]`: number of feature columns of the `make_moons` matrix. -/
def n_features : Nat := 2

/-- Prior family of a declared random variable.  `normal mu sd` is
`pm.Normal(name, mu, sd=sd)`; `bernoulli` is the `pm.Bernoulli` likelihood
whose (symbolic) parameter is the network output. -/
inductive PriorDist where
  | normal (mu sd : ℚ)
  | bernoulli
deriving DecidableEq, Repr

/-- One random-variable declaration of the PyMC3 model: its name, prior,
declared shape, and whether it is an observed node. -/
structure RVDecl where
  name : String
  dist : PriorDist
  shape : List Nat
  observed : Bool
deriving DecidableEq, Repr

/-- `True` exactly for a Gaussian (`pm.Normal`) prior. -/
def RVDecl.gaussian (w : RVDecl) : Bool :=
  match w.dist with
  | PriorDist.normal _ _ => true
  | _ => false

/-- The random variables declared in the `neural_network` model cell, in
source order: the three weight arrays and the observed Bernoulli output
(whose rows are the 700 training responses). -/
def neural_network : List RVDecl :=
  [⟨"w_in_1", PriorDist.normal 0 1, [n_features, n_hidden], false⟩,
   ⟨"w_1_2", PriorDist.normal 0 1, [n_hidden, n_hidden], false⟩,
   ⟨"w_2_out", PriorDist.normal 0 1, [n_hidden], false⟩,
   ⟨"out", PriorDist.bernoulli, [700], true⟩]

/-- The model's weight parameters: its free (non-observed) random
variables. -/
def neural_network_weights : List RVDecl :=
  neural_network.filter fun w => !w.observed

/-! ### The network's forward function (the `act_1`/`act_2`/`act_out`
expressions), over `ℝ`.

`act_1 = tanh(dot(ann_input, weights_in_1))`,
`act_2 = tanh(dot(act_1, weights_1_2))`,
`act_out = sigmoid(dot(act_2, weights_2_out))`, per input row. -/

/-- `pm.math.sigmoid`: the logistic function `1 / (1 + exp(-x))`. -/
noncomputable def sigmoid (x : ℝ) : ℝ := 1 / (1 + Real.exp (-x))

/-- Hidden activation `act_1` at unit `j` for one input row `x`. -/
noncomputable def act_1 (x : Nat → ℝ) (w1 : Nat → Nat → ℝ) (j : Nat) : ℝ :=
  Real.tanh (∑ k ∈ Finset.range n_features, x k * w1 k j)

/-- Hidden activation `act_2` at unit `j`. -/
noncomputable def act_2 (x : Nat → ℝ) (w1 w2 : Nat → Nat → ℝ) (j : Nat) : ℝ :=
  Real.tanh (∑ k ∈ Finset.range n_hidden, act_1 x w1 k * w2 k j)

/-- Network output `act_out`: the Bernoulli parameter handed to `out`. -/
noncomputable def act_out (x : Nat → ℝ) (w1 w2 : Nat → Nat → ℝ)
    (wout : Nat → ℝ) : ℝ :=
  sigmoid (∑ k ∈ Finset.range n_hidden, act_2 x w1 w2 k * wout k)

/-! ### The grid cells

`grid = pm.floatX(np.mgrid[-3:3:100j,-3:3:100j])` has shape
`(2, 100, 100)`; `grid_2d = grid.reshape(2, -1).T` lists, row-major, the
10000 grid points; `dummy_out = np.ones(grid.shape[1])`. -/

/-- `np.linspace`-style axis: `m` evenly spaced rationals from `a` to `b`
inclusive (what `np.mgrid` with an imaginary step produces). -/
def linspaceQ (a b : ℚ) (m : Nat) : List ℚ :=
  (List.range m).map fun j => a + (b - a) * (j : ℚ) / ((m : ℚ) - 1)

/-- One axis of the evaluation grid: 100 points from -3 to 3. -/
def gridAxis : List ℚ := linspaceQ (-3) 3 100

/-- `grid_2d = grid.reshape(2, -1).T`: row `k` is the grid point
`(axis[k / 100], axis[k % 100])` by row-major flattening of `np.mgrid`. -/
def grid_2d : List (List ℚ) :=
  (List.range (100 * 100)).map fun k =>
    [gridAxis.getD (k / 100) 0, gridAxis.getD (k % 100) 0]

/-- `dummy_out = np.ones(grid.shape[1], dtype=np.int8)` (unused later). -/
def dummy_out : List Int := List.replicate 100 1

/-- numpy `reshape` of a vector to an `r x c` matrix: defined exactly when
the element count matches, as numpy raises otherwise. -/
def reshape (v : List α) (r c : Nat) : Option (List (List α)) :=
  if v.length = r * c then
    some ((List.range r).map fun i => (v.drop (i * c)).take c)
  else none

/-- Column variance: entry `i` of numpy's `a.var(0)`. -/
def varAt (a : List (List ℚ)) (i : Nat) : ℚ :=
  (a.map fun r => (r.getD i 0 - meanAt a i) ^ 2).sum / (a.length : ℚ)

/-- numpy `a.var(axis=0)`. -/
def varAxis0 (a : List (List ℚ)) : List ℚ :=
  (List.range (ncols a)).map (varAt a)

/-- numpy `a.std(axis=0)`: the elementwise square root of `a.var(axis=0)`. -/
noncomputable def stdAxis0 (a : List (List ℚ)) : List ℝ :=
  (varAxis0 a).map fun q => Real.sqrt (q : ℚ)

/-! ### The whole run as a function of the ambient random stream

The source sets no seed anywhere (`np.random.randn`, `make_moons`,
`train_test_split`, `pm.fit`, `approx.sample_node` all use the global
unseeded stream), so every random draw the run consumes is collected here
in one explicit `RandomStream` record and the run is a function of it. -/

/-- All the draws a run takes from the unseeded global random stream:
the `make_moons` shuffle and noise, the `train_test_split` permutation,
the three `np.random.randn` weight initialisations, and the streams the
ADVI optimizer and the posterior sampler consume. -/
structure RandomStream where
  moonShuffle : Nat → Nat
  moonNoise : Nat → ℚ × ℚ
  splitPerm : List Nat
  initDraw1 : Nat → Nat → ℚ
  initDraw2 : Nat → Nat → ℚ
  initDrawOut : Nat → ℚ
  fitStream : Nat → ℚ
  sampleStream : Nat → ℚ

/-- The external collaborators the notebook calls, abstracted at their
public interfaces: the transcendental moon coordinates, sklearn's `scale`,
`pm.fit` (returning a fitted approximation of abstract type `α`), and the
compiled `sample_proba` function built from `approx.sample_node`, which
maps an approximation, an input matrix, a sample count and the sampler's
random stream to the sampled probability matrix. -/
structure ExternalLib (α : Type) where
  outer : Nat → ℚ × ℚ
  inner : Nat → ℚ × ℚ
  scaleFn : List (List ℚ) → List (List ℚ)
  fit : List (List ℚ) → List ℚ → (Nat → ℚ) → α
  sampler : α → List (List ℚ) → Nat → (Nat → ℚ) → List (List ℚ)

/-- `init_1 = np.random.randn(X.shape[1], n_hidden)`. -/
def init_1 (s : RandomStream) : List (List ℚ) :=
  (List.range n_features).map fun i => (List.range n_hidden).map (s.initDraw1 i)

/-- `init_2 = np.random.randn(n_hidden, n_hidden)`. -/
def init_2 (s : RandomStream) : List (List ℚ) :=
  (List.range n_hidden).map fun i => (List.range n_hidden).map (s.initDraw2 i)

/-- `init_out = np.random.randn(n_hidden)`. -/
def init_out (s : RandomStream) : List ℚ :=
  (List.range n_hidden).map s.initDrawOut

/-- Everything a run produces: the dataset, the split, the three initial
weight draws, the fitted approximation, the sampled test probabilities,
the predicted labels, and the printed accuracy. -/
structure PipelineOutputs (α : Type) where
  dataX : List (List ℚ)
  dataY : List ℚ
  xTrain : List (List ℚ)
  xTest : List (List ℚ)
  yTrain : List ℚ
  yTest : List ℚ
  init1 : List (List ℚ)
  init2 : List (List ℚ)
  initOut : List ℚ
  approx : α
  probs : List (List ℚ)
  predLabels : List Bool
  acc : ℚ

/-- The notebook's computational cells in order, as one function of the
external libraries and the ambient random stream: generate moons, scale,
`astype(floatX)` on `y` (cast to rationals), split with `test_size=.3`,
draw initial values, fit, sample 500 probability vectors for `X_test`,
threshold at 0.5, and compute the accuracy. -/
def runPipeline {α : Type} (lib : ExternalLib α) (s : RandomStream) :
    PipelineOutputs α :=
  let d := make_moons 1000 lib.outer lib.inner s.moonShuffle s.moonNoise
  let X := lib.scaleFn d.1
  let y : List ℚ := d.2.map fun v => (v : ℚ)
  let tts := train_test_split X y (3 / 10) s.splitPerm
  let xTrain := tts.1
  let xTest := tts.2.1
  let yTrain := tts.2.2.1
  let yTest := tts.2.2.2
  let approx := lib.fit xTrain yTrain s.fitStream
  let probs := lib.sampler approx xTest 500 s.sampleStream
  let p := predOf probs
  { dataX := X, dataY := y,
    xTrain := xTrain, xTest := xTest, yTrain := yTrain, yTest := yTest,
    init1 := init_1 s, init2 := init_2 s, initOut := init_out s,
    approx := approx, probs := probs, predLabels := p,
    acc := accuracy yTest p }

/-- The state of everything outside the process that a program could in
principle read or write: the file system, the environment variables, and
the command line. -/
structure World where
  files : String → Option String
  env : String → Option String
  argv : List String

/-- A run of the notebook placed in an outside world: the source opens no
file, reads no environment variable or argument, and persists nothing, so
the embedded run returns the world untouched and ignores it. -/
def runNotebookWorld {α : Type} (lib : ExternalLib α) (s : RandomStream)
    (w : World) : PipelineOutputs α × World :=
  (runPipeline lib s, w)

/-- The two prediction cells downstream of the fitted approximation:
`sample_proba(X_test, 500)`, the `pred` threshold, and the accuracy print.
`sample_proba` is compiled from `approx.sample_node` with inputs `[x, n]`
only, so `y_test` enters solely through the accuracy. -/
def predictCells {α : Type} (lib : ExternalLib α) (approx : α)
    (sampleRng : Nat → ℚ) (xTest : List (List ℚ)) (yTest : List ℚ) :
    List (List ℚ) × List Bool × ℚ :=
  let probs := lib.sampler approx xTest 500 sampleRng
  let p := predOf probs
  (probs, p, accuracy yTest p)

/-- A degenerate ambient stream every draw of which is the constant `v`;
two such streams with different `v` exhibit two runs that differ only in
the unseeded random stream. -/
def constStream (v : ℚ) : RandomStream where
  moonShuffle := id
  moonNoise := fun _ => (v, v)
  splitPerm := []
  initDraw1 := fun _ _ => v
  initDraw2 := fun _ _ => v
  initDrawOut := fun _ => v
  fitStream := fun _ => v
  sampleStream := fun _ => v

/-! ### Cell execution

The notebook is a flat list of cells with no `try`/`except` anywhere: a
cell either returns a new state or raises, and a raise aborts the rest of
the run with the error unchanged. -/

/-- Run a list of cells top to bottom from a state: the first error, if
any, is returned as is and the remaining cells are never entered. -/
def runCells {σ ε : Type} (cells : List (σ → Except ε σ)) (st : σ) :
    Except ε σ :=
  match cells with
  | [] => Except.ok st
  | c :: rest =>
    match c st with
    | Except.error e => Except.error e
    | Except.ok st2 => runCells rest st2

/-! ## Helper lemmas -/

/-- The label vector of `make_moons` has one entry per sample. -/
theorem moonLabels_length (n : Nat) : (moonLabels n).length = n := by
  simp only [moonLabels, List.length_append, List.length_replicate]
  omega

/-- Every entry of the label vector of `make_moons` is `0` or `1`. -/
theorem moonLabels_mem {n x : Nat} (hx : x ∈ moonLabels n) : x = 0 ∨ x = 1 := by
  simp only [moonLabels, List.mem_append, List.mem_replicate] at hx
  rcases hx with ⟨-, h⟩ | ⟨-, h⟩
  · exact Or.inl h
  · exact Or.inr h

/-- Indexing an arbitrary list with a default either hits an element or
returns the default. -/
theorem getD_mem_or_eq {α : Type} (l : List α) (k : Nat) (d : α) :
    l.getD k d ∈ l ∨ l.getD k d = d := by
  rw [List.getD_eq_getElem?_getD]
  rcases h : l[k]? with _ | v
  · right; simp
  · left
    simp only [Option.getD_some]
    exact List.getElem?_mem h

/-- Reading every position of a list back in order reproduces the list. -/
theorem map_getD_range {α : Type} (l : List α) (d : α) :
    (List.range l.length).map (fun i => l.getD i d) = l := by
  apply List.ext_getElem
  · simp
  · intro i h1 h2
    simp [List.getD_eq_getElem?_getD, List.getElem?_eq_getElem h2]

/-- The hyperbolic tangent stays below `1`. -/
theorem tanh_lt_one (x : ℝ) : Real.tanh x < 1 := by
  rw [Real.tanh_eq_sinh_div_cosh]
  exact (div_lt_one (Real.cosh_pos x)).mpr (Real.sinh_lt_cosh x)

/-- The hyperbolic tangent stays above `-1`. -/
theorem neg_one_lt_tanh (x : ℝ) : -1 < Real.tanh x := by
  rw [Real.tanh_eq_sinh_div_cosh]
  rw [lt_div_iff₀ (Real.cosh_pos x)]
  have h := Real.sinh_lt_cosh (-x)
  rw [Real.sinh_neg, Real.cosh_neg] at h
  linarith

/-- The logistic function is positive. -/
theorem sigmoid_pos (x : ℝ) : 0 < sigmoid x := by
  have h : (0 : ℝ) < 1 + Real.exp (-x) := by positivity
  exact div_pos one_pos h

/-- The logistic function stays below `1`. -/
theorem sigmoid_lt_one (x : ℝ) : sigmoid x < 1 := by
  have h : (0 : ℝ) < 1 + Real.exp (-x) := by positivity
  rw [sigmoid, div_lt_one h]
  linarith [Real.exp_pos (-x)]

/-! ## Claim theorems -/

/-- Claim C1: a test row's predicted label is 1 exactly when the mean of
its 500 sampled class probabilities exceeds 0.5 (a mean of exactly 0.5
yields 0), and the reported accuracy is the fraction of the 300 test
labels equal to the predictions, times 100, a value in `[0, 100]`. -/
theorem c1_prediction_threshold_accuracy (probs : List (List ℚ))
    (yTest : List ℚ) (hp : probs.length = 500)
    (hrow : ∀ r ∈ probs, r.length = 300) (hy : yTest.length = 300) :
    (predOf probs).length = 300 ∧
    (∀ i, i < 300 →
      ((predOf probs).getD i false = true ↔
        1 / 2 < (probs.map fun r => r.getD i 0).sum / 500)) ∧
    (∀ i, i < 300 → (probs.map fun r => r.getD i 0).sum / 500 = 1 / 2 →
      (predOf probs).getD i false = false) ∧
    accuracy yTest (predOf probs) =
      (matchCount yTest (predOf probs) : ℚ) / 300 * 100 ∧
    0 ≤ accuracy yTest (predOf probs) ∧
    accuracy yTest (predOf probs) ≤ 100 := by
  have hc : ncols probs = 300 := by
    cases probs with
    | nil => simp at hp
    | cons r t => exact hrow r (List.mem_cons_self r t)
  have hmean : ∀ i,
      meanAt probs i = (probs.map fun r => r.getD i 0).sum / 500 := by
    intro i
    rw [meanAt, hp]
    norm_num
  have hgd : ∀ i, i < 300 →
      (predOf probs).getD i false = decide ((1 : ℚ) / 2 < meanAt probs i) := by
    intro i hi
    rw [predOf, meanAxis0, List.getD_eq_getElem?_getD, List.getElem?_map,
      List.getElem?_map, hc, List.getElem?_range hi]
    rfl
  have hlen : (predOf probs).length = 300 := by
    simp [predOf, meanAxis0, hc]
  refine ⟨hlen, ?_, ?_, ?_, ?_, ?_⟩
  · intro i hi
    rw [hgd i hi, hmean i]
    exact decide_eq_true_iff
  · intro i hi hm
    rw [hgd i hi, ← hmean i] at *
    rw [hm]
    norm_num
  · rw [accuracy, hy]
    norm_num
  · rw [accuracy]
    positivity
  · have hzl : (yTest.zip (predOf probs)).length = 300 := by
      simp [hy, hlen]
    have hmc : matchCount yTest (predOf probs) ≤ 300 := by
      rw [matchCount]
      calc (yTest.zip (predOf probs)).countP _
          ≤ (yTest.zip (predOf probs)).length := List.countP_le_length _
        _ = 300 := hzl
    rw [accuracy, hy]
    have h1 : ((matchCount yTest (predOf probs) : ℚ)) ≤ 300 := by
      exact_mod_cast hmc
    have h2 : ((matchCount yTest (predOf probs) : ℚ)) / 300 ≤ 1 := by
      rw [div_le_one (by norm_num : (0 : ℚ) < 300)]
      exact h1
    calc (matchCount yTest (predOf probs) : ℚ) / (300 : ℕ) * 100
        ≤ 1 * 100 := by
          push_cast
          exact mul_le_mul_of_nonneg_right h2 (by norm_num)
      _ = 100 := by norm_num

/-- Witness for C1: a concrete probability matrix of 500 samples of 300
zeros and a concrete all-zero label vector; the reported accuracy lies in
`[0, 100]`. -/
theorem c1_prediction_threshold_accuracy_witness :
    0 ≤ accuracy (List.replicate 300 (0 : ℚ))
        (predOf (List.replicate 500 (List.replicate 300 (0 : ℚ)))) ∧
      accuracy (List.replicate 300 (0 : ℚ))
        (predOf (List.replicate 500 (List.replicate 300 (0 : ℚ)))) ≤ 100 := by
  have h := c1_prediction_threshold_accuracy
    (List.replicate 500 (List.replicate 300 (0 : ℚ)))
    (List.replicate 300 (0 : ℚ)) (by simp only [List.length_replicate])
    (by intro r hr
        rw [List.eq_of_mem_replicate hr]
        simp only [List.length_replicate])
    (by simp only [List.length_replicate])
  exact ⟨h.2.2.2.2.1, h.2.2.2.2.2⟩

/-- Claim C2: every weight parameter of the network — the `(2, 5)` matrix
`w_in_1`, the `(5, 5)` matrix `w_1_2` and the length-5 vector `w_2_out` —
is declared with a Normal prior of mean 0 and standard deviation 1, and
no weight (free random variable) of the model has a non-Gaussian prior. -/
theorem c2_gaussian_priors :
    neural_network_weights =
      [⟨"w_in_1", PriorDist.normal 0 1, [2, 5], false⟩,
       ⟨"w_1_2", PriorDist.normal 0 1, [5, 5], false⟩,
       ⟨"w_2_out", PriorDist.normal 0 1, [5], false⟩] ∧
    (neural_network_weights.all RVDecl.gaussian) = true := by
  decide

/-- Claim C3: for every choice of moon coordinates, shuffle and noise
stream, `make_moons` with `n_samples=1000` yields a feature matrix of
exactly 1000 rows of exactly 2 columns each, and a label vector of 1000
entries each equal to 0 or 1. -/
theorem c3_make_moons_shape (outer inner : Nat → ℚ × ℚ) (sigma : Nat → Nat)
    (noise : Nat → ℚ × ℚ) :
    (make_moons 1000 outer inner sigma noise).1.length = 1000 ∧
    ((make_moons 1000 outer inner sigma noise).1.all
      fun row => row.length == 2) = true ∧
    (make_moons 1000 outer inner sigma noise).2.length = 1000 ∧
    ((make_moons 1000 outer inner sigma noise).2.all
      fun l => l == 0 || l == 1) = true := by
  refine ⟨by simp [make_moons], ?_, ?_, ?_⟩
  · rw [List.all_eq_true]
    intro row hrow
    simp only [make_moons, List.mem_map, List.mem_range] at hrow
    obtain ⟨i, -, rfl⟩ := hrow
    simp
  · simp [make_moons, applyShuffle, moonLabels_length]
  · rw [List.all_eq_true]
    intro l hl
    simp only [make_moons, applyShuffle, List.mem_map, List.mem_range] at hl
    obtain ⟨i, -, rfl⟩ := hl
    rcases getD_mem_or_eq (moonLabels 1000) (sigma i) 0 with h | h
    · rcases moonLabels_mem h with h | h <;>
        simp only [List.getD_eq_getElem?_getD] at h <;> simp [h]
    · simp only [List.getD_eq_getElem?_getD] at h
      simp [h]

/-- Claim C4: splitting a 1000-row dataset with `test_size=.3` gives a
test set of exactly 300 rows and a training set of exactly 700 rows, and
together the (row, label) pairs of the two sets are a permutation of the
original pairs — every pair appears in exactly one of the two sets, each
row still carrying its original label. -/
theorem c4_train_test_split_partition (X : List (List ℚ)) (y : List ℚ)
    (perm : List Nat) (hX : X.length = 1000) (hy : y.length = 1000)
    (hperm : perm.Perm (List.range 1000)) :
    (train_test_split X y (3 / 10) perm).2.1.length = 300 ∧
    (train_test_split X y (3 / 10) perm).1.length = 700 ∧
    (train_test_split X y (3 / 10) perm).2.2.2.length = 300 ∧
    (train_test_split X y (3 / 10) perm).2.2.1.length = 700 ∧
    ((train_test_split X y (3 / 10) perm).2.1.zip
        (train_test_split X y (3 / 10) perm).2.2.2 ++
      (train_test_split X y (3 / 10) perm).1.zip
        (train_test_split X y (3 / 10) perm).2.2.1).Perm (X.zip y) := by
  have hk : n_test (3 / 10) X.length = 300 := by
    rw [hX, n_test]
    norm_num
  have hplen : perm.length = 1000 := by
    rw [hperm.length_eq]
    simp
  have hpairs : (X.zip y).length = 1000 := by
    simp [hX, hy]
  have e1 : (train_test_split X y (3 / 10) perm).2.1 =
      ((perm.take (n_test (3 / 10) X.length)).map
        fun i => (X.zip y).getD i default).map Prod.fst := rfl
  have e2 : (train_test_split X y (3 / 10) perm).2.2.2 =
      ((perm.take (n_test (3 / 10) X.length)).map
        fun i => (X.zip y).getD i default).map Prod.snd := rfl
  have e3 : (train_test_split X y (3 / 10) perm).1 =
      ((perm.drop (n_test (3 / 10) X.length)).map
        fun i => (X.zip y).getD i default).map Prod.fst := rfl
  have e4 : (train_test_split X y (3 / 10) perm).2.2.1 =
      ((perm.drop (n_test (3 / 10) X.length)).map
        fun i => (X.zip y).getD i default).map Prod.snd := rfl
  rw [hk] at e1 e2 e3 e4
  have hzt : (train_test_split X y (3 / 10) perm).2.1.zip
      (train_test_split X y (3 / 10) perm).2.2.2 =
      (perm.take 300).map fun i => (X.zip y).getD i default := by
    rw [e1, e2, List.zip_map']
    simp [Function.comp_def]
  have hztr : (train_test_split X y (3 / 10) perm).1.zip
      (train_test_split X y (3 / 10) perm).2.2.1 =
      (perm.drop 300).map fun i => (X.zip y).getD i default := by
    rw [e3, e4, List.zip_map']
    simp [Function.comp_def]
  refine ⟨?_, ?_, ?_, ?_, ?_⟩
  · rw [e1]; simp [hplen]
  · rw [e3]; simp [hplen]
  · rw [e2]; simp [hplen]
  · rw [e4]; simp [hplen]
  · rw [hzt, hztr, ← List.map_append, List.take_append_drop]
    have h1 := hperm.map fun i => (X.zip y).getD i default
    have h2 : (List.range 1000).map
        (fun i => (X.zip y).getD i default) = X.zip y := by
      rw [← hpairs]
      exact map_getD_range (X.zip y) default
    rw [h2] at h1
    exact h1

/-- Witness for C4: splitting a concrete 1000-row dataset of `[0]` rows
with `0` labels, under the identity permutation, yields 300 test rows and
700 training rows. -/
theorem c4_train_test_split_partition_witness :
    (train_test_split (List.replicate 1000 ([(0 : ℚ)] : List ℚ))
      (List.replicate 1000 (0 : ℚ)) (3 / 10)
      (List.range 1000)).2.1.length = 300 ∧
    (train_test_split (List.replicate 1000 ([(0 : ℚ)] : List ℚ))
      (List.replicate 1000 (0 : ℚ)) (3 / 10)
      (List.range 1000)).1.length = 700 := by
  have h := c4_train_test_split_partition
    (List.replicate 1000 ([(0 : ℚ)] : List ℚ))
    (List.replicate 1000 (0 : ℚ)) (List.range 1000)
    (by simp only [List.length_replicate])
    (by simp only [List.length_replicate]) (List.Perm.refl _)
  exact ⟨h.1, h.2.1⟩

/-- Claim C5: no seed is set anywhere, so the run is a function of the
ambient unseeded random stream, and for every choice of the external
libraries there exist two runs differing only in that stream whose
outputs differ. -/
theorem c5_unseeded_nondeterminism (α : Type) (lib : ExternalLib α) :
    ∃ s1 s2 : RandomStream, runPipeline lib s1 ≠ runPipeline lib s2 := by
  refine ⟨constStream 0, constStream 1, fun h => ?_⟩
  have h2 : init_out (constStream 0) = init_out (constStream 1) :=
    congrArg (fun o => o.initOut) h
  have h3 : init_out (constStream 0) ≠ init_out (constStream 1) := by decide
  exact h3 h2

/-- Claim C6: the notebook installs no handler, so when a cell raises
after a successful prefix, the run's result is that very error and the
remaining cells never execute. -/
theorem c6_error_propagation {σ ε : Type} (pre post : List (σ → Except ε σ))
    (c : σ → Except ε σ) (st0 st : σ) (e : ε)
    (hpre : runCells pre st0 = Except.ok st) (hc : c st = Except.error e) :
    runCells (pre ++ c :: post) st0 = Except.error e := by
  induction pre generalizing st0 with
  | nil =>
    simp [runCells] at hpre
    subst hpre
    simp [runCells, hc]
  | cons c0 rest ih =>
    rw [List.cons_append]
    rcases h0 : c0 st0 with e0 | st1
    · simp [runCells, h0] at hpre
    · simp only [runCells, h0] at hpre ⊢
      exact ih st1 hpre

/-- Witness for C6: a concrete three-cell run whose middle cell raises
error `7` from state `1`; the run returns exactly that error. -/
theorem c6_error_propagation_witness :
    runCells ([fun n : Nat => Except.ok (n + 1)] ++
      (fun _ : Nat => (Except.error 7 : Except Nat Nat)) ::
      [fun n : Nat => Except.ok n]) 0 = Except.error 7 :=
  c6_error_propagation [fun n : Nat => Except.ok (n + 1)]
    [fun n : Nat => Except.ok n] (fun _ => Except.error 7) 0 1 7 rfl rfl

/-- Claim C7: the run reads no files, environment variables or arguments
and writes no persisted state: the outside world after a run equals the
world before it, and the outputs do not depend on that world. -/
theorem c7_frame_no_world_effect {α : Type} (lib : ExternalLib α)
    (s : RandomStream) (w : World) :
    (runNotebookWorld lib s w).2 = w ∧
    ∀ w2 : World, (runNotebookWorld lib s w).1 = (runNotebookWorld lib s w2).1 :=
  ⟨rfl, fun _ => rfl⟩

/-- Claim C8: the repository's own array operations are shape-consistent:
the grid holds exactly `100 * 100 = 10000` two-coordinate points, the
per-sample mean and standard deviation of a sampled probability array
over the grid each reshape to `(100, 100)`, and the prediction vector has
length 300, matching the test set for boolean-mask indexing. -/
theorem c8_shapes_consistent (ppc probs : List (List ℚ))
    (hne : ppc ≠ []) (hppc : ∀ r ∈ ppc, r.length = 10000)
    (hpne : probs ≠ []) (hprobs : ∀ r ∈ probs, r.length = 300) :
    grid_2d.length = 10000 ∧
    (grid_2d.all fun row => row.length == 2) = true ∧
    (reshape (meanAxis0 ppc) 100 100).isSome = true ∧
    (reshape (stdAxis0 ppc) 100 100).isSome = true ∧
    (predOf probs).length = 300 := by
  have hc : ncols ppc = 10000 := by
    cases ppc with
    | nil => exact absurd rfl hne
    | cons r t => exact hppc r (List.mem_cons_self r t)
  have hcp : ncols probs = 300 := by
    cases probs with
    | nil => exact absurd rfl hpne
    | cons r t => exact hprobs r (List.mem_cons_self r t)
  refine ⟨by simp [grid_2d], ?_, ?_, ?_, by simp [predOf, meanAxis0, hcp]⟩
  · rw [List.all_eq_true]
    intro row hrow
    simp only [grid_2d, List.mem_map] at hrow
    obtain ⟨k, -, rfl⟩ := hrow
    simp
  · have hlen : (meanAxis0 ppc).length = 100 * 100 := by
      simp [meanAxis0, hc]
    rw [reshape, if_pos hlen]
    simp
  · have hlen : (stdAxis0 ppc).length = 100 * 100 := by
      simp [stdAxis0, varAxis0, hc]
    rw [reshape, if_pos hlen]
    simp

/-- Witness for C8: with a concrete one-sample probability array over the
10000 grid points, its column means reshape to `(100, 100)`, and a
concrete one-sample array over 300 test rows yields 300 predictions. -/
theorem c8_shapes_consistent_witness :
    (reshape (meanAxis0 [List.replicate 10000 (0 : ℚ)]) 100 100).isSome
      = true ∧
    (predOf [List.replicate 300 (0 : ℚ)]).length = 300 := by
  have h := c8_shapes_consistent [List.replicate 10000 (0 : ℚ)]
    [List.replicate 300 (0 : ℚ)] (List.cons_ne_nil _ _)
    (by intro r hr
        simp only [List.mem_singleton] at hr
        rw [hr]
        simp only [List.length_replicate])
    (List.cons_ne_nil _ _)
    (by intro r hr
        simp only [List.mem_singleton] at hr
        rw [hr]
        simp only [List.length_replicate])
  exact ⟨h.2.2.1, h.2.2.2.2⟩

/-- Claim C9: for every input row and every real weight assignment, each
tanh activation lies strictly in `(-1, 1)` and the network output — the
sigmoid handed to the Bernoulli likelihood — lies strictly in `(0, 1)`. -/
theorem c9_output_probability_range (x : Nat → ℝ) (w1 w2 : Nat → Nat → ℝ)
    (wout : Nat → ℝ) :
    (∀ j, -1 < act_1 x w1 j ∧ act_1 x w1 j < 1) ∧
    (∀ j, -1 < act_2 x w1 w2 j ∧ act_2 x w1 w2 j < 1) ∧
    0 < act_out x w1 w2 wout ∧ act_out x w1 w2 wout < 1 := by
  refine ⟨fun j => ⟨neg_one_lt_tanh _, tanh_lt_one _⟩,
    fun j => ⟨neg_one_lt_tanh _, tanh_lt_one _⟩, sigmoid_pos _, sigmoid_lt_one _⟩

/-- Claim C10: the compiled sampling function takes only the input matrix,
the sample count, the fitted approximation and its random stream; two runs
of the prediction cells that differ only in `y_test` produce identical
sampled probabilities and identical predicted labels. -/
theorem c10_ytest_noninterference {α : Type} (lib : ExternalLib α)
    (approx : α) (rng : Nat → ℚ) (xTest : List (List ℚ)) (y1 y2 : List ℚ) :
    (predictCells lib approx rng xTest y1).1 =
      (predictCells lib approx rng xTest y2).1 ∧
    (predictCells lib approx rng xTest y1).2.1 =
      (predictCells lib approx rng xTest y2).2.1 :=
  ⟨rfl, rfl⟩

end BNN
